import Mathlib

/-!
Verification of the PWA install-affordance controller (src/pwa-install.js).

The script is shallowly embedded: the DOM and controller state become an
explicit record `St`, the environment signals (user agent, platform string,
touch points, standalone flags) become a record `Env`, and every event
listener of the script becomes a state-transition function.  String
operations used by the script (`toLowerCase`, `toUpperCase`,
`indexOf(...) >= 0`, the `/iphone|ipad|ipod/` regex test) are modelled by
executable character-list functions.
-/

namespace PwaInstall

/-- Whether `pat` is a prefix of `s`, on character lists. -/
def hasPrefixChars : List Char → List Char → Bool
  | _, [] => true
  | [], _ :: _ => false
  | c :: cs, d :: ds => c == d && hasPrefixChars cs ds

/-- Whether `pat` occurs as a contiguous substring of `s`, on character
lists.  Models JavaScript `s.indexOf(pat) >= 0` / `s.includes(pat)`. -/
def hasSubChars : List Char → List Char → Bool
  | [], pat => pat.isEmpty
  | s@(_ :: rest), pat => hasPrefixChars s pat || hasSubChars rest pat

/-- Substring containment on strings. -/
def strContainsSub (s pat : String) : Bool :=
  hasSubChars s.data pat.data

/-- ASCII-faithful model of JavaScript `toLowerCase`. -/
def strToLower (s : String) : String :=
  String.mk (s.data.map Char.toLower)

/-- ASCII-faithful model of JavaScript `toUpperCase`. -/
def strToUpper (s : String) : String :=
  String.mk (s.data.map Char.toUpper)

/-- The regex test `/iphone|ipad|ipod/.test(ua)` from line 89, applied to
an already-lowercased user-agent string. -/
def iosUaTest (ua : String) : Bool :=
  strContainsSub ua "iphone" || strContainsSub ua "ipad" || strContainsSub ua "ipod"

/-- `navigator.platform.toUpperCase().indexOf('MAC') >= 0` (lines 91 and 177). -/
def platformIsMacLike (p : String) : Bool :=
  strContainsSub (strToUpper p) "MAC"

/-- The read-only environment signals the script consults.
`navStandalone = none` models the `standalone` property being absent from
`window.navigator`; `some b` models it being present with value `b`. -/
structure Env where
  userAgent : String
  platform : String
  maxTouchPoints : Nat
  navStandalone : Option Bool
  mediaStandalone : Bool
deriving DecidableEq

/-- The two possible values of `userChoice.outcome` (line 55). -/
inductive Outcome
  | accepted
  | dismissed
deriving DecidableEq

/-- One instructions modal in the document: which device text it shows and
whether its fade-out (opacity 0) has been triggered. -/
structure Dialog where
  device : String
  fading : Bool
deriving DecidableEq

/-- The mutable state the script touches: the module-level `deferredPrompt`
variable, presence of the `taskbarContainer` element, the number of
elements with id `pwaInstallBtn` in the document, the number of click
handlers attached to install buttons, and the list of open instructions
modals. -/
structure St where
  deferredPrompt : Option Nat
  containerPresent : Bool
  buttonCount : Nat
  handlerCount : Nat
  dialogs : List Dialog
deriving DecidableEq

/-- `createInstallButton` (lines 24-73): returns early when the container
is absent (line 26) or a button with the fixed id already exists
(line 28); otherwise appends one button and attaches one click handler. -/
def createInstallButton (s : St) : St :=
  if s.containerPresent = false then s
  else if s.buttonCount ≠ 0 then s
  else { s with buttonCount := s.buttonCount + 1, handlerCount := s.handlerCount + 1 }

/-- `showInstallInstructions` (lines 103-157): unconditionally creates a
modal for the given device type and appends it to the document body. -/
def showInstallInstructions (dev : String) (s : St) : St :=
  { s with dialogs := s.dialogs ++ [⟨dev, false⟩] }

/-- `isIos` of line 89: regex test on the lowercased user agent. -/
def detectIsIos (env : Env) : Bool :=
  iosUaTest (strToLower env.userAgent)

/-- `isIpadOS` of lines 90 and 175:
`navigator.platform === 'MacIntel' && navigator.maxTouchPoints > 1`. -/
def detectIsIpadOS (env : Env) : Bool :=
  (env.platform == "MacIntel") && decide (1 < env.maxTouchPoints)

/-- `isMac` of line 91: platform string matches MAC and neither of the two
previous classifications holds. -/
def detectIsMac (env : Env) : Bool :=
  platformIsMacLike env.platform && !detectIsIos env && !detectIsIpadOS env

/-- `isInStandaloneMode` of line 92:
`('standalone' in window.navigator) && (window.navigator.standalone)` —
only the navigator flag, no media query. -/
def detectStandaloneFlag (env : Env) : Bool :=
  env.navStandalone.getD false

/-- `detectAndShowInstructions` (lines 87-101). -/
def detectAndShowInstructions (env : Env) (s : St) : St :=
  if (detectIsIos env || detectIsIpadOS env) && !detectStandaloneFlag env then
    showInstallInstructions (if detectIsIpadOS env then "iPad" else "iOS") s
  else if detectIsMac env && !detectStandaloneFlag env then
    showInstallInstructions "Mac" s
  else s

/-- The button click handler (lines 50-63): when a deferred prompt is
stored, show the native prompt, await the outcome (only logged), clear the
handle and remove this button; otherwise fall through to
`detectAndShowInstructions`. -/
def clickInstallButton (env : Env) (_o : Outcome) (s : St) : St :=
  match s.deferredPrompt with
  | some _ =>
      { s with deferredPrompt := none, buttonCount := s.buttonCount - 1 }
  | none => detectAndShowInstructions env s

/-- The `beforeinstallprompt` listener (lines 76-84): calls
`e.preventDefault()` (the returned Bool records that the default platform
UI was suppressed), stashes the event handle, and calls
`createInstallButton`. -/
def handleBeforeInstallPrompt (h : Nat) (s : St) : St × Bool :=
  (createInstallButton { s with deferredPrompt := some h }, true)

/-- The `appinstalled` listener (lines 160-164): removes the button if one
exists; `deferredPrompt` is not touched. -/
def handleAppInstalled (s : St) : St :=
  if s.buttonCount ≠ 0 then { s with buttonCount := s.buttonCount - 1 } else s

/-- `isStandalone` of line 171:
`window.matchMedia('(display-mode: standalone)').matches ||
window.navigator.standalone === true`. -/
def topIsStandalone (env : Env) : Bool :=
  env.mediaStandalone || decide (env.navStandalone = some true)

/-- The proactive startup decision (lines 173-185): whether
`setTimeout(createInstallButton, 1000)` is scheduled. -/
def proactiveShowsButton (env : Env) : Bool :=
  if topIsStandalone env then false
  else (iosUaTest (strToLower env.userAgent) || detectIsIpadOS env)
       || platformIsMacLike env.platform

/-- The platform classification enumerated by the spec. -/
inductive PlatformClass
  | ios
  | ipados
  | macos
  | other
deriving DecidableEq

/-- The classification implicit in `detectAndShowInstructions`: which
instructions branch (if any) the booleans of lines 89-91 select. -/
def classifyPlatform (env : Env) : PlatformClass :=
  if detectIsIpadOS env then PlatformClass.ipados
  else if detectIsIos env then PlatformClass.ios
  else if detectIsMac env then PlatformClass.macos
  else PlatformClass.other

/-- The click handler of a sole open modal's GOT IT button (lines 153-156,
first half): sets the modal's opacity to 0 and leaves it in the document
until the 300 ms timer fires. -/
def closeClickAt (i : Nat) (s : St) : St :=
  match s.dialogs[i]? with
  | some d => { s with dialogs := s.dialogs.set i { d with fading := true } }
  | none => s

/-- The deferred `modal.remove()` of line 155 firing after the 300 ms
fade delay. -/
def fadeTimerAt (i : Nat) (s : St) : St :=
  { s with dialogs := s.dialogs.eraseIdx i }

/-! Concrete environments and states used by witnesses and counterexamples. -/

/-- A fresh page state: no handle, container present, no button, no dialog. -/
def st0 : St :=
  { deferredPrompt := none, containerPresent := true, buttonCount := 0,
    handlerCount := 0, dialogs := [] }

/-- An armed state: a handle stored and the button present. -/
def stArmed : St :=
  { deferredPrompt := some 5, containerPresent := true, buttonCount := 1,
    handlerCount := 1, dialogs := [] }

/-- An iPhone Safari environment, not standalone. -/
def envIphone : Env :=
  { userAgent := "iphone", platform := "iPhone", maxTouchPoints := 5,
    navStandalone := some false, mediaStandalone := false }

/-- An iPad environment: desktop Mac platform string with multi-touch. -/
def envIpad : Env :=
  { userAgent := "mozilla", platform := "MacIntel", maxTouchPoints := 5,
    navStandalone := some false, mediaStandalone := false }

/-- A Mac environment whose display-mode media query reports standalone
but whose navigator has no `standalone` property. -/
def envMacMediaStandalone : Env :=
  { userAgent := "mozilla", platform := "MacIntel", maxTouchPoints := 0,
    navStandalone := none, mediaStandalone := true }

/-- An environment whose navigator reports standalone true. -/
def envFlagTrue : Env :=
  { userAgent := "iphone", platform := "iPhone", maxTouchPoints := 5,
    navStandalone := some true, mediaStandalone := false }

/-! Claim theorems. -/

/-- Claim C1: for every sequence of a `beforeinstallprompt` signal, a click
of the install button, and any user outcome, the stored handle is cleared
to `none` and the button is removed from the document, each exactly once
(the button count goes 0 to 1 to 0 and the handle from `some` to `none`),
regardless of the outcome value; no instructions dialog is opened. -/
theorem install_flow_clears_handle_and_removes_button
    (env : Env) (s : St) (hdl : Nat) (o : Outcome)
    (hc : s.containerPresent = true) (hb : s.buttonCount = 0) :
    ((handleBeforeInstallPrompt hdl s).1.deferredPrompt = some hdl) ∧
    ((handleBeforeInstallPrompt hdl s).1.buttonCount = 1) ∧
    ((clickInstallButton env o (handleBeforeInstallPrompt hdl s).1).deferredPrompt = none) ∧
    ((clickInstallButton env o (handleBeforeInstallPrompt hdl s).1).buttonCount = 0) ∧
    ((clickInstallButton env o (handleBeforeInstallPrompt hdl s).1).dialogs = s.dialogs) := by
  simp [handleBeforeInstallPrompt, createInstallButton, clickInstallButton, hc, hb]

/-- Witness for C1: the flow evaluated on a fresh state with a dismissed
outcome. -/
theorem install_flow_clears_handle_and_removes_button_witness :
    ((clickInstallButton envIphone Outcome.dismissed
        (handleBeforeInstallPrompt 7 st0).1).deferredPrompt = none) ∧
    ((clickInstallButton envIphone Outcome.dismissed
        (handleBeforeInstallPrompt 7 st0).1).buttonCount = 0) :=
  ⟨(install_flow_clears_handle_and_removes_button envIphone st0 7 Outcome.dismissed
      rfl rfl).2.2.1,
   (install_flow_clears_handle_and_removes_button envIphone st0 7 Outcome.dismissed
      rfl rfl).2.2.2.1⟩

/-- Claim C4: invoking `createInstallButton` twice in a row without an
intervening removal leaves exactly one button with the fixed id in the
container and exactly one attached click handler; the second invocation
changes nothing. -/
theorem create_button_idempotent (s : St)
    (hc : s.containerPresent = true) (hb : s.buttonCount = 0)
    (hh : s.handlerCount = 0) :
    createInstallButton (createInstallButton s) = createInstallButton s ∧
    (createInstallButton (createInstallButton s)).buttonCount = 1 ∧
    (createInstallButton (createInstallButton s)).handlerCount = 1 := by
  simp [createInstallButton, hc, hb, hh]

/-- Witness for C4 on the fresh state. -/
theorem create_button_idempotent_witness :
    createInstallButton (createInstallButton st0) = createInstallButton st0 ∧
    (createInstallButton (createInstallButton st0)).buttonCount = 1 ∧
    (createInstallButton (createInstallButton st0)).handlerCount = 1 :=
  create_button_idempotent st0 rfl rfl rfl

/-- Claim C8: the `appinstalled` listener removes the install button
regardless of prior state, is idempotent, and is a safe no-op (the state is
unchanged, no error) when no button exists. -/
theorem appinstalled_removes_button_safe (s : St) (hb : s.buttonCount ≤ 1) :
    (handleAppInstalled s).buttonCount = 0 ∧
    handleAppInstalled (handleAppInstalled s) = handleAppInstalled s ∧
    (s.buttonCount = 0 → handleAppInstalled s = s) := by
  rcases Nat.le_one_iff_eq_zero_or_eq_one.mp hb with h | h <;>
    simp [handleAppInstalled, h]

/-- Witness for C8 on the armed state. -/
theorem appinstalled_removes_button_safe_witness :
    (handleAppInstalled stArmed).buttonCount = 0 ∧
    handleAppInstalled (handleAppInstalled stArmed) = handleAppInstalled stArmed ∧
    (stArmed.buttonCount = 0 → handleAppInstalled stArmed = stArmed) :=
  appinstalled_removes_button_safe stArmed (by decide)

/-- Claim C10: a second `beforeinstallprompt` received while a handle is
already stored and the button is present replaces the stored handle with
the new one, again suppresses the default platform UI, creates no second
button and attaches no second handler. -/
theorem second_bip_replaces_handle (s : St) (h hNew : Nat)
    (_hd : s.deferredPrompt = some h) (hb : s.buttonCount = 1) :
    ((handleBeforeInstallPrompt hNew s).2 = true) ∧
    ((handleBeforeInstallPrompt hNew s).1.deferredPrompt = some hNew) ∧
    ((handleBeforeInstallPrompt hNew s).1.buttonCount = 1) ∧
    ((handleBeforeInstallPrompt hNew s).1.handlerCount = s.handlerCount) := by
  cases hcont : s.containerPresent <;>
    simp [handleBeforeInstallPrompt, createInstallButton, hb, hcont]

/-- Witness for C10 on the armed state. -/
theorem second_bip_replaces_handle_witness :
    ((handleBeforeInstallPrompt 9 stArmed).2 = true) ∧
    ((handleBeforeInstallPrompt 9 stArmed).1.deferredPrompt = some 9) ∧
    ((handleBeforeInstallPrompt 9 stArmed).1.buttonCount = 1) ∧
    ((handleBeforeInstallPrompt 9 stArmed).1.handlerCount = stArmed.handlerCount) :=
  second_bip_replaces_handle stArmed 5 9 rfl rfl

/-- Claim C3 counterexample: in the armed state, after the `appinstalled`
signal the controller still holds the handle (`some 5`, not `none`), even
though the button has been removed — the listener of lines 160-164 never
clears `deferredPrompt`. -/
theorem appinstalled_keeps_handle_cex :
    (handleAppInstalled stArmed).deferredPrompt = some 5 ∧
    ¬ ((handleAppInstalled stArmed).deferredPrompt = none) ∧
    (handleAppInstalled stArmed).buttonCount = 0 := by
  decide

/-- Claim C3 amended: the `appinstalled` listener leaves the stored handle
unchanged (it only removes the button); the handle is cleared only when
consumed by a click of the button while a handle is stored. -/
theorem appinstalled_preserves_handle (s : St) (env : Env) (o : Outcome)
    (h : Nat) (hd : s.deferredPrompt = some h) :
    (handleAppInstalled s).deferredPrompt = s.deferredPrompt ∧
    (clickInstallButton env o s).deferredPrompt = none := by
  refine ⟨?_, ?_⟩
  · unfold handleAppInstalled
    split <;> rfl
  · simp [clickInstallButton, hd]

/-- Witness for the amended C3 on the armed state. -/
theorem appinstalled_preserves_handle_witness :
    (handleAppInstalled stArmed).deferredPrompt = stArmed.deferredPrompt ∧
    (clickInstallButton envIphone Outcome.accepted stArmed).deferredPrompt = none :=
  appinstalled_preserves_handle stArmed envIphone Outcome.accepted 5 rfl

/-- Claim C2 counterexample: an environment whose display-mode media query
reports standalone (so `topIsStandalone` is true) but whose navigator lacks
the `standalone` flag; `detectAndShowInstructions` still shows the Mac
instructions dialog, because line 92 consults only the navigator flag. -/
theorem detect_ignores_media_query_cex :
    envMacMediaStandalone.mediaStandalone = true ∧
    topIsStandalone envMacMediaStandalone = true ∧
    (detectAndShowInstructions envMacMediaStandalone st0).dialogs =
      [⟨"Mac", false⟩] := by
  decide

/-- Claim C2 amended: in the dialog path, the standalone determination
consults only the platform-reported navigator flag — when that flag is
present and true no dialog is shown for every platform classification —
and the display-mode media query is never consulted (changing it changes
nothing). -/
theorem detect_standalone_flag_only :
    (∀ (env : Env) (s : St), env.navStandalone = some true →
      detectAndShowInstructions env s = s) ∧
    (∀ (env : Env) (s : St) (b : Bool),
      detectAndShowInstructions { env with mediaStandalone := b } s =
        detectAndShowInstructions env s) := by
  refine ⟨?_, ?_⟩
  · intro env s hflag
    simp [detectAndShowInstructions, detectStandaloneFlag, hflag]
  · intro env s b
    rfl

/-- Witness for the amended C2: with the navigator flag true, the dialog
path leaves the state unchanged. -/
theorem detect_standalone_flag_only_witness :
    detectAndShowInstructions envFlagTrue st0 = st0 :=
  detect_standalone_flag_only.1 envFlagTrue st0 rfl

/-- Claim C6: with platform string MacIntel and more than one touch point,
the classification in `detectAndShowInstructions` is iPadOS, not macOS:
when not standalone the iPad dialog is shown, and the Mac branch is never
taken. -/
theorem macintel_multitouch_is_ipad (env : Env) (s : St)
    (hp : env.platform = "MacIntel") (ht : 1 < env.maxTouchPoints) :
    classifyPlatform env = PlatformClass.ipados ∧
    classifyPlatform env ≠ PlatformClass.macos ∧
    (detectStandaloneFlag env = false →
      detectAndShowInstructions env s = showInstallInstructions "iPad" s) ∧
    (detectStandaloneFlag env = true →
      detectAndShowInstructions env s = s) := by
  have hipad : detectIsIpadOS env = true := by
    simp [detectIsIpadOS, hp, ht]
  refine ⟨?_, ?_, ?_, ?_⟩
  · simp [classifyPlatform, hipad]
  · simp [classifyPlatform, hipad]
  · intro hf
    simp [detectAndShowInstructions, hipad, hf]
  · intro hf
    simp [detectAndShowInstructions, hf]

/-- Witness for C6 on the iPad environment. -/
theorem macintel_multitouch_is_ipad_witness :
    classifyPlatform envIpad = PlatformClass.ipados ∧
    classifyPlatform envIpad ≠ PlatformClass.macos ∧
    (detectStandaloneFlag envIpad = false →
      detectAndShowInstructions envIpad st0 = showInstallInstructions "iPad" st0) ∧
    (detectStandaloneFlag envIpad = true →
      detectAndShowInstructions envIpad st0 = st0) :=
  macintel_multitouch_is_ipad envIpad st0 rfl (by decide)

/-- Claim C7: a user agent containing an iPhone token, with the platform
string not MacIntel-with-multi-touch, classifies as iOS — never macOS or
iPadOS — and when not standalone the iOS instructions branch is chosen. -/
theorem iphone_ua_is_ios (env : Env) (s : St)
    (hua : strContainsSub (strToLower env.userAgent) "iphone" = true)
    (hnot : ¬ (env.platform = "MacIntel" ∧ 1 < env.maxTouchPoints)) :
    classifyPlatform env = PlatformClass.ios ∧
    classifyPlatform env ≠ PlatformClass.macos ∧
    classifyPlatform env ≠ PlatformClass.ipados ∧
    (detectStandaloneFlag env = false →
      detectAndShowInstructions env s = showInstallInstructions "iOS" s) := by
  have hipad : detectIsIpadOS env = false := by
    unfold detectIsIpadOS
    cases hMac : (env.platform == "MacIntel") with
    | false => simp
    | true =>
      have heq : env.platform = "MacIntel" := by simpa using hMac
      simp [not_and.mp hnot heq]
  have hios : detectIsIos env = true := by
    simp [detectIsIos, iosUaTest, hua]
  refine ⟨?_, ?_, ?_, ?_⟩
  · simp [classifyPlatform, hipad, hios]
  · simp [classifyPlatform, hipad, hios]
  · simp [classifyPlatform, hipad, hios]
  · intro hf
    simp [detectAndShowInstructions, hipad, hios, hf]

/-- Witness for C7 on the iPhone environment. -/
theorem iphone_ua_is_ios_witness :
    classifyPlatform envIphone = PlatformClass.ios ∧
    classifyPlatform envIphone ≠ PlatformClass.macos ∧
    classifyPlatform envIphone ≠ PlatformClass.ipados ∧
    (detectStandaloneFlag envIphone = false →
      detectAndShowInstructions envIphone st0 =
        showInstallInstructions "iOS" st0) :=
  iphone_ua_is_ios envIphone st0 (by decide) (by decide)

/-- Claim C5: the proactive startup path schedules button creation exactly
when the environment is not standalone and the platform classifies as iOS,
iPadOS or macOS; in particular a true navigator standalone flag suppresses
it, and when scheduled the creation call produces the button. -/
theorem proactive_button_iff (env : Env) :
    (proactiveShowsButton env = true ↔
      (topIsStandalone env = false ∧
        classifyPlatform env ≠ PlatformClass.other)) ∧
    (env.navStandalone = some true → proactiveShowsButton env = false) ∧
    (∀ s : St, proactiveShowsButton env = true → s.containerPresent = true →
      s.buttonCount = 0 → (createInstallButton s).buttonCount = 1) := by
  refine ⟨?_, ?_, ?_⟩
  · unfold proactiveShowsButton classifyPlatform detectIsMac detectIsIos
    cases hst : topIsStandalone env <;>
      cases hi : iosUaTest (strToLower env.userAgent) <;>
        cases hp : detectIsIpadOS env <;>
          cases hm : platformIsMacLike env.platform <;>
            simp [hst, hi, hp, hm]
  · intro hflag
    have hst : topIsStandalone env = true := by
      simp [topIsStandalone, hflag]
    simp [proactiveShowsButton, hst]
  · intro s _ hc hb
    simp [createInstallButton, hc, hb]

/-- Witness for C5: suppressed by the true flag, and firing on an iPhone
environment creates the button. -/
theorem proactive_button_iff_witness :
    proactiveShowsButton envFlagTrue = false ∧
    (createInstallButton st0).buttonCount = 1 :=
  ⟨(proactive_button_iff envFlagTrue).2.1 rfl,
   (proactive_button_iff envIphone).2.2 st0 (by decide) rfl rfl⟩

/-- Claim C9 counterexample: two clicks of the button without a stored
handle, on an iPhone environment, leave two instructions dialogs in the
document at once — `showInstallInstructions` has no singleton guard. -/
theorem dialog_not_singleton_cex :
    ((clickInstallButton envIphone Outcome.accepted
        (clickInstallButton envIphone Outcome.accepted st0)).dialogs).length
      = 2 := by
  decide

/-- Claim C9 amended: the instructions dialog is a transient overlay but
not a singleton (repeated triggers append further dialogs); each dialog
self-destroys after the acknowledgment click, staying in the document
(faded) until the short delay elapses and only then being removed. -/
theorem dialog_transient_lifecycle (dev : String) (s : St)
    (hd : s.dialogs = []) :
    ((showInstallInstructions dev s).dialogs = [⟨dev, false⟩]) ∧
    ((closeClickAt 0 (showInstallInstructions dev s)).dialogs
      = [⟨dev, true⟩]) ∧
    ((closeClickAt 0 (showInstallInstructions dev s)).dialogs).length = 1 ∧
    ((fadeTimerAt 0
        (closeClickAt 0 (showInstallInstructions dev s))).dialogs = []) := by
  simp [showInstallInstructions, closeClickAt, fadeTimerAt, hd]

/-- Witness for the amended C9 on the fresh state. -/
theorem dialog_transient_lifecycle_witness :
    ((showInstallInstructions "iOS" st0).dialogs = [⟨"iOS", false⟩]) ∧
    ((closeClickAt 0 (showInstallInstructions "iOS" st0)).dialogs
      = [⟨"iOS", true⟩]) ∧
    ((closeClickAt 0 (showInstallInstructions "iOS" st0)).dialogs).length = 1 ∧
    ((fadeTimerAt 0
        (closeClickAt 0 (showInstallInstructions "iOS" st0))).dialogs = []) :=
  dialog_transient_lifecycle "iOS" st0 rfl

end PwaInstall
